import Mathlib

/-!
# Verification of the warehouse-ai capability registry and intent-routing layer

A shallow embedding, in Lean 4, of the core routing components of the
warehouse-ai repository:

* the agent registry (`AgentRegistry`: discovery, validation, lookup and
  intent-tag scoring) from `apps/orchestrator/src/registry/AgentRegistry.ts`;
* the intent classifier (`classifyQueryLLM` / `fallbackClassification`) from
  `apps/orchestrator/src/nlp/query-router.ts`;
* the orchestrator (`routeToAgent`, `updateConversationContext`,
  `processQuery`) from `apps/orchestrator/src/app.ts`;
* the location agent (`processMessage`, `processWarehouseQuery`, the
  query-shape handlers) from `apps/location-agent/src/server.js`.

Modelling conventions:

* JavaScript strings are Lean `String`s; the handful of string operations the
  code uses (`toLowerCase`, `includes`, the `/\b\d{6,}\b/` regex) are defined
  below on the underlying character lists, restricted to ASCII (all queries,
  tags and keywords in the repository are ASCII).
* Asynchronous calls that can fail (the Claude API call, manifest fetches,
  MCP tool calls) are modelled by explicit outcome values (`Except`, sum
  types): a JS `throw` is an `Except.error`.
* JS `Map` is modelled by an insertion-ordered association list with
  replace-in-place `set` semantics, matching `Map`'s iteration order.
* `Array.prototype.sort` with the comparator `(a, b) => b.score - a.score` is,
  per the ECMAScript specification, a stable sort for this consistent
  comparator; its (unique) result is modelled by a stable insertion sort.
-/

set_option linter.unusedVariables false

deriving instance DecidableEq for Except

namespace WarehouseAI

/-! ## String primitives (ASCII model of the JS string operations used) -/

/-- ASCII lower-casing of one character, as JS `toLowerCase` acts on the
ASCII range (the only range exercised by the repository). -/
def lowerChar (c : Char) : Char :=
  if 65 ≤ c.toNat ∧ c.toNat ≤ 90 then Char.ofNat (c.toNat + 32) else c

/-- JS `s.toLowerCase()` on ASCII strings. -/
def jsToLower (s : String) : String := String.mk (s.data.map lowerChar)

/-- `needle` is a prefix of `hay`. -/
def isPrefixB : List Char → List Char → Bool
  | [], _ => true
  | _ :: _, [] => false
  | c :: cs, d :: ds => c == d && isPrefixB cs ds

/-- `needle` occurs as a contiguous substring of `hay`. -/
def isSubstrB (needle : List Char) : List Char → Bool
  | [] => needle.isEmpty
  | d :: ds => isPrefixB needle (d :: ds) || isSubstrB needle ds

/-- JS `a.includes(b)`. -/
def strIncludes (a b : String) : Bool := isSubstrB b.data a.data

/-- JS regex word character class `\w`, i.e. `[A-Za-z0-9_]`. -/
def wordChar (c : Char) : Bool := c.isAlpha || c.isDigit || c == '_'

theorem length_dropWhile_le {α : Type} (p : α → Bool) (l : List α) :
    (l.dropWhile p).length ≤ l.length := by
  induction l with
  | nil => simp [List.dropWhile]
  | cons a t ih =>
    rw [List.dropWhile_cons]
    split
    · exact Nat.le_succ_of_le ih
    · simp

/-- State-machine test for the JS regex `/\\b\\d{6,}\\b/.test(s)`: a match is a
maximal run of at least six digits whose neighbours (if any) are not word
characters.  `prevWord` records whether the character before the current
position is a word character (`false` at the start of the string); `runLen` is
the length of the current digit run that started at a left word boundary
(`0` when no such run is open).  Only the first position of a maximal digit
run can satisfy the left `\\b` and only its last position the right `\\b`, so
tracking boundary-started runs is exact. -/
def scanBoundedDigitRun (prevWord : Bool) (runLen : Nat) (l : List Char) : Bool :=
  match l with
  | [] => 6 ≤ runLen
  | c :: rest =>
    if c.isDigit then
      if 0 < runLen then scanBoundedDigitRun true (runLen + 1) rest
      else if !prevWord then scanBoundedDigitRun true 1 rest
      else scanBoundedDigitRun true 0 rest
    else
      if 6 ≤ runLen && !wordChar c then true
      else scanBoundedDigitRun (wordChar c) 0 rest

/-- JS `/\\b\\d{6,}\\b/.test(s)`. -/
def testBoundedDigitRun (s : String) : Bool := scanBoundedDigitRun false 0 s.data

/-- State-machine scan extracting every match of `/\\b\\d{6,}\\b/g`, leftmost
first; `acc` holds the characters of the currently open boundary-started digit
run. -/
def scanAllBoundedDigitRuns (prevWord : Bool) (acc : List Char) (l : List Char) :
    List String :=
  match l with
  | [] => if 6 ≤ acc.length then [String.mk acc] else []
  | c :: rest =>
    if c.isDigit then
      if !acc.isEmpty then scanAllBoundedDigitRuns true (acc ++ [c]) rest
      else if !prevWord then scanAllBoundedDigitRuns true [c] rest
      else scanAllBoundedDigitRuns true [] rest
    else
      if 6 ≤ acc.length && !wordChar c then
        String.mk acc :: scanAllBoundedDigitRuns (wordChar c) [] rest
      else scanAllBoundedDigitRuns (wordChar c) [] rest

/-- JS `s.match(/\\b\\d{6,}\\b/g) || []`. -/
def allBoundedDigitRuns (s : String) : List String :=
  scanAllBoundedDigitRuns false [] s.data

/-- JS `s.match(/\\b\\d{6,}\\b/)`: the first match, when one exists. -/
def firstBoundedDigitRun (s : String) : Option String :=
  (allBoundedDigitRuns s).head?

/-- JS `/\d+/.test(s)`. -/
def hasAnyDigit (s : String) : Bool := s.data.any Char.isDigit

/-! ## Agent registry data model (`AgentRegistry.ts`) -/

/-- A tool descriptor as it appears in an agent manifest
(`AgentManifest.tools` elements). -/
structure ManifestTool where
  name : String
  description : String
  intentTags : List String
  deriving Repr, DecidableEq

/-- A manifest as fetched from an agent, before validation.  JS is untyped, so
each field that `validateManifest` checks is an `Option`: `none` models a
missing or wrongly-typed field. -/
structure RawManifest where
  agentId : Option String := none
  name : Option String := none
  description : Option String := none
  version : Option String := none
  tools : Option (List ManifestTool) := none
  capabilities : Option (List String) := none
  expertise : Option (List String) := none
  healthEndpoint : Option String := none
  status : Option String := none
  deriving Repr, DecidableEq

/-- An `AgentRegistryEntry`: the manifest fields plus the registry-owned
`healthy` flag (the `Date` bookkeeping fields carry no logic and are elided). -/
structure AgentRegistryEntry where
  agentId : String
  name : String
  description : String
  version : String
  tools : List ManifestTool
  capabilities : List String
  expertise : List String
  healthy : Bool
  deriving Repr, DecidableEq

/-- The registry map `Map<string, AgentRegistryEntry>`, as an
insertion-ordered association list: `set` replaces in place on an existing
key (JS `Map` keeps the original insertion position) and appends otherwise. -/
abbrev RegistryMap := List (String × AgentRegistryEntry)

/-- JS `map.set(k, v)`: an existing key keeps its original insertion
position and gets the new value; a new key is appended at the end. -/
def mapSet : RegistryMap → String → AgentRegistryEntry → RegistryMap
  | [], k, v => [(k, v)]
  | p :: t, k, v => if p.1 == k then (k, v) :: t else p :: mapSet t k v

/-- JS `map.get(k)` (and so `AgentRegistry.getAgent`). -/
def mapGet : RegistryMap → String → Option AgentRegistryEntry
  | [], _ => none
  | p :: t, k => if p.1 == k then some p.2 else mapGet t k

/-- `getAllAgents()`: `Array.from(this.agents.values())`, in insertion order. -/
def getAllAgents (m : RegistryMap) : List AgentRegistryEntry :=
  m.map (fun p => p.2)

/-- `getHealthyAgents()`. -/
def getHealthyAgents (m : RegistryMap) : List AgentRegistryEntry :=
  (getAllAgents m).filter (fun a => a.healthy)

/-- `validateManifest`: the manifest is an object whose `agentId`, `name`,
`description` and `version` are strings and whose `tools`, `capabilities` and
`expertise` are arrays. -/
def validateManifest (m : RawManifest) : Bool :=
  m.agentId.isSome && m.name.isSome && m.description.isSome && m.version.isSome &&
  m.tools.isSome && m.capabilities.isSome && m.expertise.isSome

/-- The `AgentRegistryEntry` built by `discoverAgents` from a manifest
(`{ ...manifest, ..., healthy: manifest.status === 'healthy' }`).  The `getD`
defaults are never reached for a manifest that passed `validateManifest`. -/
def entryOfManifest (m : RawManifest) : AgentRegistryEntry :=
  { agentId := m.agentId.getD ""
    name := m.name.getD ""
    description := m.description.getD ""
    version := m.version.getD ""
    tools := m.tools.getD []
    capabilities := m.capabilities.getD []
    expertise := m.expertise.getD []
    healthy := m.status == some "healthy" }

/-- The outcome of obtaining one configured agent manifest: `ok` when the
local accessor / remote fetch returned a value, `fail` when it threw (or the
config entry had neither `instance` nor `endpoint`). -/
inductive ManifestFetch where
  | ok (m : RawManifest)
  | fail
  deriving Repr, DecidableEq

/-- One entry of the discovery config, together with the outcome of its
manifest fetch. -/
structure AgentConfig where
  agentId : String
  fetch : ManifestFetch
  deriving Repr, DecidableEq

/-- The loop body of `discoverAgents` for one configured agent (the per-agent
try/catch): a fetch failure or a manifest that fails validation is logged and
skipped (`continue` / caught error), a validated manifest is registered under
its own `agentId`. -/
def registerOne (reg : RegistryMap) (cfg : AgentConfig) : RegistryMap :=
  match cfg.fetch with
  | .fail => reg
  | .ok m =>
    if validateManifest m then mapSet reg (m.agentId.getD "") (entryOfManifest m)
    else reg

/-- `discoverAgents`: iterate the configured agents, handling each
independently. -/
def discoverAgents (cfgs : List AgentConfig) (reg : RegistryMap) : RegistryMap :=
  match cfgs with
  | [] => reg
  | cfg :: rest => discoverAgents rest (registerOne reg cfg)

/-! ## Intent-tag scoring and its stable descending sort -/

/-- The fuzzy tag match: case-insensitive substring containment in either
direction, exactly as in `findAgentsByIntentTags`. -/
def fuzzyMatch (x y : String) : Bool :=
  strIncludes (jsToLower x) (jsToLower y) || strIncludes (jsToLower y) (jsToLower x)

/-- The score `findAgentsByIntentTags` assigns to one healthy agent: per tool,
the number of its `intentTags` fuzzy-matching some query tag, times two;
plus one per fuzzy-matching capability label and one per fuzzy-matching
expertise label. -/
def scoreAgent (tags : List String) (a : AgentRegistryEntry) : Int :=
  (a.tools.map (fun tool =>
      ((tool.intentTags.filter (fun tag => tags.any (fun q => fuzzyMatch q tag))).length : Int) * 2)).sum
  + ((a.capabilities.filter (fun cap => tags.any (fun tag => fuzzyMatch cap tag))).length : Int)
  + ((a.expertise.filter (fun exp => tags.any (fun tag => fuzzyMatch exp tag))).length : Int)

/-- A `{agent, score}` result pair. -/
structure ScoredAgent where
  agent : AgentRegistryEntry
  score : Int
  deriving Repr, DecidableEq

/-- Stable descending insertion by key: `x` goes before the first element
whose key is `≤ key x`, i.e. after every earlier element with a strictly
greater key and before every earlier element with an equal or smaller key. -/
def insertByKeyDesc {α : Type} (key : α → Int) (x : α) : List α → List α
  | [] => [x]
  | y :: ys => if key y ≤ key x then x :: y :: ys else y :: insertByKeyDesc key x ys

/-- Stable descending sort by key.  `Array.prototype.sort` with the
comparator `(a, b) => key(b) - key(a)` is specified to be stable and, for
this consistent comparator, has a unique possible output: the one this
insertion sort computes. -/
def sortByKeyDesc {α : Type} (key : α → Int) : List α → List α
  | [] => []
  | x :: xs => insertByKeyDesc key x (sortByKeyDesc key xs)

/-- The unsorted `results` array built by `findAgentsByIntentTags`: healthy
agents in discovery order, scored, keeping only strictly positive scores. -/
def scoredCandidates (m : RegistryMap) (tags : List String) : List ScoredAgent :=
  (getHealthyAgents m).filterMap (fun a =>
    let s := scoreAgent tags a
    if 0 < s then some ⟨a, s⟩ else none)

/-- `findAgentsByIntentTags`. -/
def findAgentsByIntentTags (m : RegistryMap) (tags : List String) : List ScoredAgent :=
  sortByKeyDesc (fun p => p.score) (scoredCandidates m tags)

/-! ## Intent classifier (`query-router.ts`) -/

inductive Complexity where
  | simple
  | moderate
  | complex
  deriving Repr, DecidableEq

/-- A `QueryClassification` value.  `parameters` is the JS key-value object,
restricted to the string-valued entries the code ever stores. -/
structure QueryClassification where
  intent : String
  confidence : Int
  targetAgent : String
  parameters : List (String × String)
  complexity : Complexity
  reasoning : List String
  deriving Repr, DecidableEq

/-- `fallbackClassification(query, registry)`: pure rule-based classification.
Lower-cases the query, applies the ordered substring rules, targets the first
healthy agent (or the literal `location-agent-001` when none is healthy), and
derives complexity from conjunction markers in the original query. -/
def fallbackClassification (query : String) (reg : RegistryMap) : QueryClassification :=
  let lower := jsToLower query
  let intent :=
    if strIncludes lower "where is" || testBoundedDigitRun lower then
      "product_location_search"
    else if strIncludes lower "how many" || strIncludes lower "count" then
      "inventory_count_query"
    else if strIncludes lower "highest" || strIncludes lower "most" then
      "inventory_ranking_analysis"
    else if strIncludes lower "summary" || strIncludes lower "overview" then
      "comprehensive_summary"
    else if strIncludes lower "space" then
      "space_analysis"
    else if strIncludes lower "expire" then
      "expiration_check"
    else
      "general_warehouse_query"
  let target :=
    match (getHealthyAgents reg).head? with
    | some a => a.agentId
    | none => "location-agent-001"
  { intent := intent
    confidence := 50
    targetAgent := target
    parameters := [("query", query)]
    complexity :=
      if strIncludes query " and " || strIncludes query " then " then .complex else .simple
    reasoning := ["Rule-based fallback"] }

/-- The classification parsed from the LLM JSON, before normalisation:
`confidence` may be absent (`undefined`). -/
structure RawClassification where
  intent : String
  confidence : Option Int
  targetAgent : String
  parameters : List (String × String)
  complexity : Complexity
  reasoning : List String
  deriving Repr, DecidableEq

/-- Outcome of the `Promise.race` between the Claude API call and the fixed
10-second timer, followed by response decoding.  `success` means a response
arrived in time, its first content block was text and `JSON.parse` succeeded;
the other constructors are the three failure modes, all of which `throw`
inside the `try`. -/
inductive LLMOutcome where
  | success (c : RawClassification)
  | timeout
  | apiError
  | malformed
  deriving Repr, DecidableEq

/-- The fixed classifier timeout, in milliseconds
(`setTimeout(..., 10000)` in `classifyQueryLLM`). -/
def CLAUDE_TIMEOUT_MS : Nat := 10000

/-- `fallback.reasoning.push(note)`. -/
def pushReasoning (c : QueryClassification) (note : String) : QueryClassification :=
  { c with reasoning := c.reasoning ++ [note] }

/-- Does `agentId` resolve, via `registry.getAgent`, to a currently healthy
entry?  (`agent && agent.healthy` in the source.) -/
def resolvesHealthy (reg : RegistryMap) (agentId : String) : Bool :=
  match mapGet reg agentId with
  | some a => a.healthy
  | none => false

/-- `classifyQueryLLM`.  `testMode` is true when `NODE_ENV === 'test'` or no
usable API key is configured (the function then short-circuits to the
fallback); otherwise `outcome` is the result of the time-bounded API call.
Every failure outcome is caught and recovered by the fallback; a successful
LLM result is discarded in favour of the fallback when its target agent does
not resolve to a healthy entry or its (defaulted) confidence is below 40. -/
def classifyQueryLLM (testMode : Bool) (outcome : LLMOutcome) (query : String)
    (reg : RegistryMap) : QueryClassification :=
  if testMode then fallbackClassification query reg
  else
    match outcome with
    | .success c =>
      if !(resolvesHealthy reg c.targetAgent) then
        pushReasoning (fallbackClassification query reg)
          "Target agent unavailable, using fallback"
      else
        let conf := c.confidence.getD 50
        if conf < 40 then
          pushReasoning (fallbackClassification query reg) "Low confidence fallback"
        else
          { intent := c.intent, confidence := conf, targetAgent := c.targetAgent,
            parameters := c.parameters, complexity := c.complexity,
            reasoning := c.reasoning }
    | .timeout => fallbackClassification query reg
    | .apiError => fallbackClassification query reg
    | .malformed => fallbackClassification query reg

/-! ## Location agent (`apps/location-agent/src/server.js`)

The MCP tool layer is abstracted as a function from tool name and parameters
to a result or a thrown error; tool results carry the fields the handlers
inspect for control flow (`items`, `products`, `summary`).  The synthesized
response strings are abbreviated to their leading markers and the data they
interpolate that the handlers branch on — the full numeric renderings
(`toLocaleString`, `toFixed`, per-line formatting) carry no control flow and
are elided; no claim depends on them. -/

/-- An inventory row, reduced to the fields the handlers branch on. -/
structure InventoryItem where
  productNumber : String
  qtyAvailUnits : Int
  qtyAvailEaches : Int
  deriving Repr, DecidableEq

/-- The `summary` object of a tool result, reduced to representative numeric
fields. -/
structure ToolSummary where
  totalProducts : Int := 0
  totalUnits : Int := 0
  overallUtilization : Int := 0
  itemsExpiring : Int := 0
  priorityItems : Int := 0
  deriving Repr, DecidableEq

/-- A tool result: `summary = none` models a result without a (truthy)
`summary` field. -/
structure ToolResult where
  items : List InventoryItem := []
  products : List InventoryItem := []
  summary : Option ToolSummary := none
  deriving Repr, DecidableEq

/-- A parameter value in a tool call. -/
inductive ParamValue where
  | str (s : String)
  | num (n : Int)
  | flag (b : Bool)
  deriving Repr, DecidableEq

abbrev ToolParams := List (String × ParamValue)

/-- One record of the `toolCalls` trace (`{ tool, params, result }`). -/
structure ToolCallRecord where
  tool : String
  params : ToolParams
  result : ToolResult
  deriving Repr, DecidableEq

/-- The MCP tool layer: `mcpServer.callTool(name, params)`, which either
resolves with a result or rejects with an error message. -/
abbrev ToolRunner := String → ToolParams → Except String ToolResult

/-- The mutable `reasoning` and `toolCalls` arrays shared by the handlers,
threaded explicitly. -/
structure HandlerState where
  reasoning : List String
  toolCalls : List ToolCallRecord
  deriving Repr, DecidableEq

def HandlerState.note (st : HandlerState) (s : String) : HandlerState :=
  { st with reasoning := st.reasoning ++ [s] }

def HandlerState.record (st : HandlerState) (r : ToolCallRecord) : HandlerState :=
  { st with toolCalls := st.toolCalls ++ [r] }

/-- `handleRankingQuery`: one `quantity_analysis` call, then — when items came
back — a data-dependent follow-up `find_product_locations` call for the top
item by total quantity. -/
def handleRankingQuery (run : ToolRunner) (query : String) (st : HandlerState) :
    HandlerState × Except String String :=
  let st := st.note "📊 Executing ranking analysis with multiple tools"
  let params : ToolParams := [("analysisType", .str "high_volume"), ("limit", .num 50)]
  match run "quantity_analysis" params with
  | .error e => (st, .error e)
  | .ok quantityResult =>
    let st := st.record ⟨"quantity_analysis", params, quantityResult⟩
    match sortByKeyDesc (fun i => i.qtyAvailUnits + i.qtyAvailEaches) quantityResult.items with
    | [] => (st, .ok "No ranking data available in the warehouse.")
    | topProduct :: _ =>
      let params2 : ToolParams :=
        [("productNumber", .str topProduct.productNumber),
         ("includeDetails", .flag true), ("limit", .num 5)]
      match run "find_product_locations" params2 with
      | .error e => (st, .error e)
      | .ok locationResult =>
        let st := st.record ⟨"find_product_locations", params2, locationResult⟩
        (st, .ok ("📊 **Analysis Results: Top Products by Quantity**\n\n🥇 **Highest Quantity Product:**\n   **"
          ++ topProduct.productNumber ++ "**"))

/-- The guidance string `handleCountQuery` falls through to. -/
def countGuidance : String :=
  "I can count various warehouse metrics. Try asking:\n• \"How many locations in dry area?\""

/-- `handleCountQuery`. -/
def handleCountQuery (run : ToolRunner) (query : String) (st : HandlerState) :
    HandlerState × Except String String :=
  let st := st.note "🔢 Executing count/quantity analysis"
  let lower := jsToLower query
  if strIncludes lower "locations" && (strIncludes lower "dry" || strIncludes lower "area d") then
    let params : ToolParams := [("areaId", .str "D"), ("limit", .num 1000)]
    match run "get_inventory_by_area" params with
    | .error e => (st, .error e)
    | .ok result =>
      let st := st.record ⟨"get_inventory_by_area", params, result⟩
      match result.summary with
      | some s =>
        (st, .ok ("📦 **Dry Area (D) Location Count:**\n\n🔢 **Total Locations**: "
          ++ toString s.totalProducts))
      | none => (st, .ok countGuidance)
  else if strIncludes lower "locations" && !(strIncludes lower "area") then
    let params : ToolParams := [("includeRecommendations", .flag false)]
    match run "analyze_space_utilization" params with
    | .error e => (st, .error e)
    | .ok spaceResult =>
      let st := st.record ⟨"analyze_space_utilization", params, spaceResult⟩
      match spaceResult.summary with
      | some s =>
        (st, .ok ("📍 **Total Warehouse Locations:**\n\n📊 **Space Utilization**: "
          ++ toString s.overallUtilization ++ "%"))
      | none =>
        (st, .ok "📍 **Warehouse Locations:**\n\n🔢 Based on our database with 21,425+ inventory records")
  else
    (st, .ok countGuidance)

/-- `handleLocationQuery`: extracts a `\b\d{6,}\b` product number from the
original query and looks it up. -/
def handleLocationQuery (run : ToolRunner) (query : String) (st : HandlerState) :
    HandlerState × Except String String :=
  let st := st.note "📍 Executing location search"
  match firstBoundedDigitRun query with
  | some productNumber =>
    let params : ToolParams :=
      [("productNumber", .str productNumber), ("includeDetails", .flag true), ("limit", .num 10)]
    match run "find_product_locations" params with
    | .error e => (st, .error e)
    | .ok result =>
      let st := st.record ⟨"find_product_locations", params, result⟩
      match result.products with
      | product :: _ =>
        (st, .ok ("📍 **Product Location Found:**\n\n🏷️ **Product**: " ++ productNumber))
      | [] => (st, .ok ("❌ Product " ++ productNumber ++ " not found in the warehouse."))
  | none =>
    (st, .ok "Please specify a product number to locate. For example: \"Where is product 1263755?\"")

/-- `handleAreaQuery`. -/
def handleAreaQuery (run : ToolRunner) (query : String) (st : HandlerState) :
    HandlerState × Except String String :=
  let st := st.note "🏢 Executing area-specific analysis"
  let lower := jsToLower query
  let area :=
    if strIncludes lower "dry" || strIncludes lower "area d" then ("D", "Dry")
    else if strIncludes lower "refrigerated" || strIncludes lower "area r" then ("R", "Refrigerated")
    else ("F", "Frozen")
  let params : ToolParams := [("areaId", .str area.1), ("limit", .num 100)]
  match run "get_inventory_by_area" params with
  | .error e => (st, .error e)
  | .ok result =>
    let st := st.record ⟨"get_inventory_by_area", params, result⟩
    match result.summary with
    | some s =>
      (st, .ok ("🏢 **" ++ area.2 ++ " Area (" ++ area.1 ++ ") Analysis:**\n\n• Total Products: "
        ++ toString s.totalProducts))
    | none => (st, .ok ("No data available for " ++ area.2 ++ " area."))

/-- The per-area loop of `handleComparisonQuery`: one `get_inventory_by_area`
call per area id, sequentially; the first rejection aborts the loop (`await`
inside `for..of`). -/
def comparisonLoop (run : ToolRunner) (areas : List String) (st : HandlerState) :
    HandlerState × Except String (List (String × ToolResult)) :=
  match areas with
  | [] => (st, .ok [])
  | areaId :: rest =>
    let params : ToolParams :=
      [("areaId", .str areaId), ("includeExpired", .flag false), ("limit", .num 100)]
    match run "get_inventory_by_area" params with
    | .error e => (st, .error e)
    | .ok result =>
      let st := st.record ⟨"get_inventory_by_area", params, result⟩
      match comparisonLoop run rest st with
      | (st2, .ok results) => (st2, .ok ((areaId, result) :: results))
      | (st2, .error e) => (st2, .error e)

/-- `handleComparisonQuery`: compares the three areas F, D, R. -/
def handleComparisonQuery (run : ToolRunner) (query : String) (st : HandlerState) :
    HandlerState × Except String String :=
  let st := st.note "🔍 Executing comparison analysis"
  match comparisonLoop run ["F", "D", "R"] st with
  | (st2, .error e) => (st2, .error e)
  | (st2, .ok areaResults) =>
    (st2, .ok ("🔍 **Warehouse Area Comparison:**\n\n"
      ++ String.join (areaResults.map (fun p => "📦 **Area (" ++ p.1 ++ "):**\n"))))

/-- `handleExplanationQuery`. -/
def handleExplanationQuery (run : ToolRunner) (query : String) (st : HandlerState) :
    HandlerState × Except String String :=
  let st := st.note "💡 Providing detailed explanation with data"
  let params : ToolParams := [("includeRecommendations", .flag true)]
  match run "analyze_space_utilization" params with
  | .error e => (st, .error e)
  | .ok spaceResult =>
    let st := st.record ⟨"analyze_space_utilization", params, spaceResult⟩
    (st, .ok ("💡 **Detailed Warehouse Explanation:**\n\n🛠️ **Available Tools:**"
      ++ (match spaceResult.summary with
          | some s => "\n📊 **Current Warehouse Status:**\n• Total Utilization: "
              ++ toString s.overallUtilization ++ "%"
          | none => "")))

/-- The parameter literals of the three `handleSummaryQuery` tool calls. -/
def summarySpaceParams : ToolParams := [("includeRecommendations", .flag true)]

def summaryExpirationParams : ToolParams :=
  [("daysThreshold", .num 30), ("priorityOnly", .flag true)]

def summaryQuantityParams : ToolParams :=
  [("analysisType", .str "summary"), ("limit", .num 10)]

/-- The synthesized summary response: one section per tool result that has a
(truthy) `summary` field, plus the fixed header and key-insights tail. -/
def summaryResponse (spaceResult expirationResult quantityResult : ToolResult) : String :=
  "📋 **Comprehensive Warehouse Summary**\n\n"
  ++ (match spaceResult.summary with
      | some s => "🏢 **Space Utilization:**\n• Overall: "
          ++ toString s.overallUtilization ++ "% utilized\n\n"
      | none => "")
  ++ (match expirationResult.summary with
      | some s => "⏰ **Expiration Status:**\n• Items expiring (30 days): "
          ++ toString s.itemsExpiring ++ "\n\n"
      | none => "")
  ++ (match quantityResult.summary with
      | some s => "📦 **Inventory Overview:**\n• Total Products: "
          ++ toString s.totalProducts ++ "\n\n"
      | none => "")
  ++ "💡 **Key Insights:**\n• This data is live from the warehouse database"

/-- `handleSummaryQuery`: the three independent tool calls are issued as one
`Promise.all` batch — an all-or-nothing join.  If any call rejects the whole
batch rejects: the handler returns that rejection and records no tool call
(the `toolCalls.push` in the source runs only after `Promise.all` resolves).
`Promise.all` rejects with the first rejection to settle; the model picks the
first in list order, a deterministic refinement that agrees on success/failure
status. -/
def handleSummaryQuery (run : ToolRunner) (query : String) (st : HandlerState) :
    HandlerState × Except String String :=
  let st := st.note "📋 Generating comprehensive warehouse summary"
  match run "analyze_space_utilization" summarySpaceParams,
        run "check_expiration_dates" summaryExpirationParams,
        run "quantity_analysis" summaryQuantityParams with
  | .ok spaceResult, .ok expirationResult, .ok quantityResult =>
    let st := st.record ⟨"analyze_space_utilization", summarySpaceParams, spaceResult⟩
    let st := st.record ⟨"check_expiration_dates", summaryExpirationParams, expirationResult⟩
    let st := st.record ⟨"quantity_analysis", summaryQuantityParams, quantityResult⟩
    (st, .ok (summaryResponse spaceResult expirationResult quantityResult))
  | .error e, _, _ => (st, .error e)
  | _, .error e, _ => (st, .error e)
  | _, _, .error e => (st, .error e)

/-- The guidance string the flexible handler falls through to. -/
def flexibleGuidance : String :=
  "I can help with specific warehouse questions using real data. Try asking:\n\n📊 \"What product has the highest quantity?\""

/-- The per-product loop of `handleFlexibleQuery`. -/
def flexibleLoop (run : ToolRunner) (productNumbers : List String) (st : HandlerState) :
    HandlerState × Except String (List (String × ToolResult)) :=
  match productNumbers with
  | [] => (st, .ok [])
  | productNumber :: rest =>
    let params : ToolParams :=
      [("productNumber", .str productNumber), ("includeDetails", .flag true), ("limit", .num 5)]
    match run "find_product_locations" params with
    | .error e => (st, .error e)
    | .ok result =>
      let st := st.record ⟨"find_product_locations", params, result⟩
      match flexibleLoop run rest st with
      | (st2, .ok results) => (st2, .ok ((productNumber, result) :: results))
      | (st2, .error e) => (st2, .error e)

/-- `handleFlexibleQuery`: when the query mentions `product` and contains a
digit, look up (at most three) `\b\d{6,}\b` product numbers; otherwise, or
when no such number exists, return the guidance response. -/
def handleFlexibleQuery (run : ToolRunner) (query : String) (st : HandlerState) :
    HandlerState × Except String String :=
  let st := st.note "🎯 Using flexible multi-tool approach"
  let lower := jsToLower query
  if strIncludes lower "product" && hasAnyDigit query then
    match hp : (allBoundedDigitRuns query).take 3 with
    | [] => (st, .ok flexibleGuidance)
    | productNumbers =>
      match flexibleLoop run productNumbers st with
      | (st2, .error e) => (st2, .error e)
      | (st2, .ok results) =>
        (st2, .ok ("🔍 **Product Search Results:**\n\n"
          ++ String.join (results.map (fun p =>
              match p.2.products with
              | _ :: _ => "📦 **Product " ++ p.1 ++ ":**\n\n"
              | [] => "❌ Product " ++ p.1 ++ " not found\n\n"))))
  else
    (st, .ok flexibleGuidance)

/-- `planAndExecuteQuery`: the ordered first-match-wins dispatch over the
eight query shapes, on the lower-cased query. -/
def planAndExecuteQuery (run : ToolRunner) (query : String) (st : HandlerState) :
    HandlerState × Except String String :=
  let st := st.note ("🧠 Planning approach for: \"" ++ query ++ "\"")
  let lowerQuery := jsToLower query
  if strIncludes lowerQuery "highest" || strIncludes lowerQuery "most"
      || strIncludes lowerQuery "best" || strIncludes lowerQuery "top"
      || strIncludes lowerQuery "lowest" || strIncludes lowerQuery "least" then
    handleRankingQuery run query st
  else if strIncludes lowerQuery "compare" || strIncludes lowerQuery "difference"
      || strIncludes lowerQuery "vs" then
    handleComparisonQuery run query st
  else if (strIncludes lowerQuery "how many" || strIncludes lowerQuery "count"
      || strIncludes lowerQuery "total number") && !(strIncludes lowerQuery "explain") then
    handleCountQuery run query st
  else if strIncludes lowerQuery "where is" || strIncludes lowerQuery "find"
      || strIncludes lowerQuery "locate" then
    handleLocationQuery run query st
  else if strIncludes lowerQuery "in area" || strIncludes lowerQuery "frozen"
      || strIncludes lowerQuery "dry" || strIncludes lowerQuery "refrigerated" then
    handleAreaQuery run query st
  else if strIncludes lowerQuery "summary" || strIncludes lowerQuery "overview"
      || strIncludes lowerQuery "report" then
    handleSummaryQuery run query st
  else if (strIncludes lowerQuery "explain" || strIncludes lowerQuery "how do you"
      || strIncludes lowerQuery "what tools") && !(strIncludes lowerQuery "how many") then
    handleExplanationQuery run query st
  else
    handleFlexibleQuery run query st

inductive ResponseStatus where
  | success
  | error
  | partialResult
  deriving Repr, DecidableEq

/-- An A2A message (ids and timestamps carry no logic and are elided). -/
structure A2AMessage where
  sessionId : String
  agentId : String
  content : String
  deriving Repr, DecidableEq

/-- An A2A response. -/
structure A2AResponse where
  sessionId : String
  agentId : String
  content : String
  reasoning : List String
  toolCalls : List ToolCallRecord
  status : ResponseStatus
  deriving Repr, DecidableEq

/-- The initial handler state of `processWarehouseQuery`:
`reasoning = ['🤔 Analyzing warehouse query: "..."']`, no tool calls yet. -/
def initialHandlerState (query : String) : HandlerState :=
  { reasoning := ["🤔 Analyzing warehouse query: \"" ++ query ++ "\""], toolCalls := [] }

/-- `processWarehouseQuery`: runs `planAndExecuteQuery` under a try/catch.  A
successful run yields a `success` response; a throw from any handler is
caught, an error note is appended to the shared reasoning trail, and an
`error` response with an explanatory message is returned — the partial
`toolCalls` trace accumulated before the throw is kept either way. -/
def processWarehouseQuery (run : ToolRunner) (message : A2AMessage) : A2AResponse :=
  let query := message.content
  match planAndExecuteQuery run query (initialHandlerState query) with
  | (st, Except.ok content) =>
    { sessionId := message.sessionId
      agentId := "location-agent-001"
      content := content
      reasoning := st.reasoning ++ ["✅ Successfully completed multi-tool analysis"]
      toolCalls := st.toolCalls
      status := .success }
  | (st, Except.error e) =>
    { sessionId := message.sessionId
      agentId := "location-agent-001"
      content := "I encountered an issue processing your warehouse query. " ++ e
      reasoning := st.reasoning ++ ["❌ Error executing query: " ++ e]
      toolCalls := st.toolCalls
      status := .error }

/-- The location agent conversation memory, reduced to the fields
`processMessage` writes. -/
structure ConversationMemory where
  sessionId : String
  messages : List A2AMessage
  queryHistory : List String
  deriving Repr, DecidableEq

/-- `locationAgent.processMessage`.  When the agent is not running it throws
`Error('Location Agent is not running')` before entering its try/catch
(`Except.error` models a fault propagated to the caller).  Otherwise the
message is appended to memory and `processWarehouseQuery` — which never
throws — produces the structured response. -/
def processMessage (isRunning : Bool) (run : ToolRunner) (memory : ConversationMemory)
    (message : A2AMessage) : Except String (A2AResponse × ConversationMemory) :=
  if !isRunning then
    .error "Location Agent is not running"
  else
    let memory :=
      { memory with
        messages := memory.messages ++ [message]
        queryHistory := memory.queryHistory ++ [message.content] }
    .ok (processWarehouseQuery run message, memory)

/-! ## Orchestrator (`apps/orchestrator/src/app.ts`) -/

/-- The routing failures `routeToAgent` can throw, plus the propagated fault
of a stopped location agent. -/
inductive RouteError where
  | agentNotFound (agentId : String)
  | agentUnhealthy (agentId : String)
  | routingNotImplemented (agentId : String)
  | agentFault (message : String)
  deriving Repr, DecidableEq

/-- `routeToAgent`: resolve the classification target in the registry; an
unknown or unhealthy target throws a routing error.  Dispatch itself is
hard-coded: only the id `location-agent-001` reaches
`locationAgent.processMessage`; any other (healthy, registered) target throws
`Agent routing not implemented`. -/
def routeToAgent (agentRunning : Bool) (run : ToolRunner) (memory : ConversationMemory)
    (reg : RegistryMap) (query : String) (classification : QueryClassification)
    (sessionId : String) : Except RouteError (A2AResponse × ConversationMemory) :=
  match mapGet reg classification.targetAgent with
  | none => .error (.agentNotFound classification.targetAgent)
  | some agent =>
    if !agent.healthy then
      .error (.agentUnhealthy classification.targetAgent)
    else if classification.targetAgent == "location-agent-001" then
      match processMessage agentRunning run memory
              { sessionId := sessionId, agentId := "orchestrator", content := query } with
      | .ok r => .ok r
      | .error e => .error (.agentFault e)
    else
      .error (.routingNotImplemented classification.targetAgent)

/-- One turn of the orchestrator conversation history. -/
structure HistoryEntry where
  role : String
  content : String
  agentId : Option String := none
  deriving Repr, DecidableEq

/-- The orchestrator `ConversationContext`, reduced to the fields
`updateConversationContext` writes (timestamps elided). -/
structure ConversationContext where
  sessionId : String
  conversationHistory : List HistoryEntry
  lastIntent : Option String := none
  lastAgent : Option String := none
  deriving Repr, DecidableEq

/-- The user-side history entry pushed by `updateConversationContext`. -/
def userTurn (query : String) : HistoryEntry :=
  { role := "user", content := query }

/-- The agent-side history entry pushed by `updateConversationContext`. -/
def agentTurn (response : A2AResponse) : HistoryEntry :=
  { role := "agent", content := response.content, agentId := some response.agentId }

/-- `updateConversationContext`: push both sides of the exchange, update the
last-intent/agent context, then trim the history to its last 20 entries
(`history = history.slice(-20)` when `history.length > 20`). -/
def updateConversationContext (ctx : ConversationContext) (query : String)
    (response : A2AResponse) (classification : QueryClassification) :
    ConversationContext :=
  let hist := ctx.conversationHistory ++ [userTurn query, agentTurn response]
  let hist := if 20 < hist.length then hist.drop (hist.length - 20) else hist
  { ctx with
    conversationHistory := hist
    lastIntent := some classification.intent
    lastAgent := some classification.targetAgent }

/-- The value `processQuery` resolves with (elapsed time elided). -/
structure OrchestratorResult where
  response : String
  reasoning : List String
  agentUsed : String
  classification : QueryClassification
  deriving Repr, DecidableEq

/-- `processQuery`: classify (LLM path with fallback), route to the target
agent, then append both sides of the exchange to the session context.  A
routing error propagates to the caller; on success the response, the merged
reasoning trail and the updated context are returned. -/
def processQuery (testMode : Bool) (outcome : LLMOutcome) (agentRunning : Bool)
    (run : ToolRunner) (reg : RegistryMap) (ctx : ConversationContext)
    (memory : ConversationMemory) (query : String) :
    Except RouteError (OrchestratorResult × ConversationContext × ConversationMemory) :=
  let classification := classifyQueryLLM testMode outcome query reg
  match routeToAgent agentRunning run memory reg query classification ctx.sessionId with
  | .error e => .error e
  | .ok (agentResponse, memory2) =>
    let ctx2 := updateConversationContext ctx query agentResponse classification
    .ok ({ response := agentResponse.content
           reasoning := classification.reasoning ++ agentResponse.reasoning
           agentUsed := classification.targetAgent
           classification := classification }, ctx2, memory2)

/-! ## Reference-semantics model of registry snapshots

`getAllAgents()` is `Array.from(this.agents.values())`: the *array* is fresh,
but its elements are the very entry objects stored in the map —
`refreshAgents` relies on exactly this aliasing when it assigns
`agent.healthy` in place.  To reason about mutation through a returned
snapshot, this model makes JS object references explicit: entry objects live
in a heap addressed by `Nat` references, the registry map stores references,
and `getAllAgents` returns a fresh list of the same references. -/

namespace RefModel

/-- The mutable state of one registry-entry object (fields beyond `agentId`
and `healthy` play no role in the aliasing question). -/
structure EntryCell where
  agentId : String
  healthy : Bool
  deriving Repr, DecidableEq

/-- The heap of entry objects; a JS object reference is an index. -/
abbrev Heap := List EntryCell

/-- The registry private map `agentId → reference`. -/
structure Registry where
  entries : List (String × Nat)
  deriving Repr, DecidableEq

/-- Dereference. -/
def readCell (h : Heap) (r : Nat) : Option EntryCell := h.get? r

/-- Field assignment `cell.healthy = b` through a reference. -/
def writeHealthy (h : Heap) (r : Nat) (b : Bool) : Heap :=
  match h.get? r with
  | some e => h.set r { e with healthy := b }
  | none => h

/-- `getAllAgents()`: a fresh array whose elements are the stored references. -/
def getAllAgents (reg : Registry) : List Nat := reg.entries.map (fun p => p.2)

/-- `getAgent(id)`: look the reference up and dereference it. -/
def getAgent (h : Heap) (reg : Registry) (agentId : String) : Option EntryCell :=
  match reg.entries.find? (fun p => p.1 == agentId) with
  | some p => readCell h p.2
  | none => none

end RefModel

/-! ## Sample data (the location agent manifest from the repository) -/

/-- The location agent tools with the intent tags of `getIntentTagsForTool`
(first three tools; enough for every witness). -/
def locationTools : List ManifestTool :=
  [ { name := "find_product_locations"
      description := "Search for product locations by ID or description"
      intentTags := ["location", "find", "where", "search", "product", "locate", "position"] },
    { name := "get_inventory_by_area"
      description := "Query inventory by warehouse area"
      intentTags := ["area", "zone", "frozen", "dry", "refrigerated", "inventory", "region"] },
    { name := "quantity_analysis"
      description := "Analyze stock levels and quantities"
      intentTags := ["quantity", "amount", "count", "stock", "levels", "highest", "most", "top", "ranking"] } ]

/-- The registered location agent entry. -/
def locationEntry : AgentRegistryEntry :=
  { agentId := "location-agent-001"
    name := "Warehouse Location Agent"
    description := "Specialist agent for warehouse inventory location queries"
    version := "1.0.0"
    tools := locationTools
    capabilities :=
      ["Natural language query processing", "Multi-turn conversation memory",
       "Complex query decomposition"]
    expertise :=
      ["Product location queries", "Space utilization analysis",
       "Inventory status management"]
    healthy := true }

/-- A second, hypothetical healthy agent (used to exercise the
`Agent routing not implemented` branch). -/
def summarizerEntry : AgentRegistryEntry :=
  { agentId := "summarizer-agent-001"
    name := "Summarizer Agent"
    description := "Generates unified responses from raw tool results"
    version := "0.1.0"
    tools := []
    capabilities := ["Response synthesis"]
    expertise := ["Summaries"]
    healthy := true }

/-- The same entry, unhealthy. -/
def unhealthyEntry : AgentRegistryEntry := { locationEntry with healthy := false }

/-- A registry holding the one discovered location agent. -/
def sampleRegistry : RegistryMap := [("location-agent-001", locationEntry)]

/-- A registry with a second healthy agent. -/
def twoAgentRegistry : RegistryMap :=
  [("location-agent-001", locationEntry), ("summarizer-agent-001", summarizerEntry)]

/-- A registry whose only agent is unhealthy. -/
def unhealthyRegistry : RegistryMap := [("location-agent-001", unhealthyEntry)]

/-- A tool runner on which every call succeeds with a fixed summary-bearing
result. -/
def okRunner : ToolRunner := fun _ _ =>
  .ok { summary := some { totalProducts := 3, totalUnits := 10, overallUtilization := 62,
                          itemsExpiring := 1, priorityItems := 1 } }

/-- A tool runner on which `check_expiration_dates` rejects and every other
tool succeeds. -/
def expirationFailRunner : ToolRunner := fun tool _ =>
  if tool == "check_expiration_dates" then .error "database connection lost"
  else .ok { summary := some { totalProducts := 3, totalUnits := 10, overallUtilization := 62,
                               itemsExpiring := 1, priorityItems := 1 } }

/-! ## Claim theorems -/

/-- C4: the classifier call is bounded by the fixed 10000 ms timeout, and on a
timeout, a failed or erroring API call, or malformed output,
`classifyQueryLLM` returns exactly the deterministic fallback classification —
the failure is recovered locally (the function is total, so no
timeout or error ever surfaces to the caller of classify). -/
theorem classification_failures_recovered_locally :
    CLAUDE_TIMEOUT_MS = 10000 ∧
    ∀ (outcome : LLMOutcome) (query : String) (reg : RegistryMap),
      (outcome = .timeout ∨ outcome = .apiError ∨ outcome = .malformed) →
      classifyQueryLLM false outcome query reg = fallbackClassification query reg := by
  refine ⟨rfl, ?_⟩
  rintro outcome query reg (rfl | rfl | rfl) <;> rfl

theorem classification_failures_recovered_locally_witness :
    classifyQueryLLM false LLMOutcome.timeout "where is product 1263755" sampleRegistry =
      fallbackClassification "where is product 1263755" sampleRegistry :=
  classification_failures_recovered_locally.2 LLMOutcome.timeout
    "where is product 1263755" sampleRegistry (Or.inl rfl)

/-- Helper: the trimmed history never exceeds 20 entries. -/
theorem updateConversationContext_length_le (ctx : ConversationContext) (query : String)
    (response : A2AResponse) (cls : QueryClassification) :
    (updateConversationContext ctx query response cls).conversationHistory.length ≤ 20 := by
  simp only [updateConversationContext]
  split
  · rename_i h
    simp only [List.length_drop]
    omega
  · rename_i h
    omega

/-- C9: after `updateConversationContext` the session history holds at most 20
entries; both sides of the exchange are appended first, and when the appended
history exceeds 20 entries exactly its most recent 20 are retained (otherwise
nothing is dropped); hence every successful `processQuery` leaves the stored
context with at most 20 history entries. -/
theorem conversation_history_bounded :
    ∀ (ctx : ConversationContext) (query : String) (response : A2AResponse)
      (cls : QueryClassification),
      (updateConversationContext ctx query response cls).conversationHistory.length ≤ 20 ∧
      (20 < (ctx.conversationHistory ++ [userTurn query, agentTurn response]).length →
        (updateConversationContext ctx query response cls).conversationHistory =
          (ctx.conversationHistory ++ [userTurn query, agentTurn response]).drop
            ((ctx.conversationHistory ++ [userTurn query, agentTurn response]).length - 20)) ∧
      ((ctx.conversationHistory ++ [userTurn query, agentTurn response]).length ≤ 20 →
        (updateConversationContext ctx query response cls).conversationHistory =
          ctx.conversationHistory ++ [userTurn query, agentTurn response]) ∧
      (∀ (testMode : Bool) (outcome : LLMOutcome) (agentRunning : Bool) (run : ToolRunner)
         (reg : RegistryMap) (memory : ConversationMemory) (r : OrchestratorResult)
         (ctx2 : ConversationContext) (mem2 : ConversationMemory),
        processQuery testMode outcome agentRunning run reg ctx memory query =
          .ok (r, ctx2, mem2) →
        ctx2.conversationHistory.length ≤ 20) := by
  intro ctx query response cls
  refine ⟨updateConversationContext_length_le ctx query response cls, ?_, ?_, ?_⟩
  · intro h
    simp only [updateConversationContext]
    rw [if_pos h]
  · intro h
    simp only [updateConversationContext]
    rw [if_neg (by omega)]
  · intro testMode outcome agentRunning run reg memory r ctx2 mem2 hq
    simp only [processQuery] at hq
    set c := classifyQueryLLM testMode outcome query reg with hc
    rcases hroute : routeToAgent agentRunning run memory reg query c ctx.sessionId with e | pr
    · rw [hroute] at hq
      exact absurd hq (by simp)
    · rw [hroute] at hq
      simp only [Except.ok.injEq, Prod.mk.injEq] at hq
      rcases hq with ⟨-, h2, -⟩
      have : ctx2 = updateConversationContext ctx query pr.1 c := h2.symm
      subst this
      exact updateConversationContext_length_le ctx query pr.1 c

/-- A canned agent response for witnesses. -/
def demoResponse : A2AResponse :=
  { sessionId := "s", agentId := "location-agent-001", content := "ok",
    reasoning := [], toolCalls := [], status := .success }

/-- A session context already holding 20 history entries. -/
def longCtx : ConversationContext :=
  { sessionId := "s"
    conversationHistory := (List.range 20).map (fun i => { role := "user", content := toString i })
    lastIntent := none
    lastAgent := none }

theorem conversation_history_bounded_witness :
    (updateConversationContext longCtx "q" demoResponse
        (fallbackClassification "q" sampleRegistry)).conversationHistory =
      (longCtx.conversationHistory ++ [userTurn "q", agentTurn demoResponse]).drop
        ((longCtx.conversationHistory ++ [userTurn "q", agentTurn demoResponse]).length - 20) :=
  (conversation_history_bounded longCtx "q" demoResponse
    (fallbackClassification "q" sampleRegistry)).2.1 (by decide)

/-- C10: dispatch is hard-coded to the single agent id `location-agent-001`:
for every classification whose target resolves to a healthy registry entry
under any other id, `routeToAgent` throws `Agent routing not implemented`
instead of dispatching, and a dispatch (`ok` result) can only have happened
for target `location-agent-001`. -/
theorem routing_hardcoded_to_location_agent :
    ∀ (agentRunning : Bool) (run : ToolRunner) (memory : ConversationMemory)
      (reg : RegistryMap) (query : String) (cls : QueryClassification) (sessionId : String),
      (∀ a, mapGet reg cls.targetAgent = some a → a.healthy = true →
        cls.targetAgent ≠ "location-agent-001" →
        routeToAgent agentRunning run memory reg query cls sessionId =
          .error (.routingNotImplemented cls.targetAgent)) ∧
      (∀ result, routeToAgent agentRunning run memory reg query cls sessionId = .ok result →
        cls.targetAgent = "location-agent-001") := by
  intro agentRunning run memory reg query cls sessionId
  constructor
  · intro a ha hh hne
    simp only [routeToAgent, ha, hh, Bool.not_true, Bool.false_eq_true, if_false]
    rw [if_neg (by simpa using hne)]
  · intro result hok
    simp only [routeToAgent] at hok
    split at hok
    · exact absurd hok (by simp)
    · split at hok
      · exact absurd hok (by simp)
      · split at hok
        · rename_i hbeq
          exact eq_of_beq hbeq
        · exact absurd hok (by simp)

theorem routing_hardcoded_to_location_agent_witness :
    routeToAgent true okRunner ⟨"s", [], []⟩ twoAgentRegistry "q"
        { intent := "comprehensive_summary", confidence := 90,
          targetAgent := "summarizer-agent-001", parameters := [],
          complexity := .simple, reasoning := [] } "s" =
      .error (.routingNotImplemented "summarizer-agent-001") :=
  (routing_hardcoded_to_location_agent true okRunner ⟨"s", [], []⟩ twoAgentRegistry "q"
    { intent := "comprehensive_summary", confidence := 90,
      targetAgent := "summarizer-agent-001", parameters := [],
      complexity := .simple, reasoning := [] } "s").1
    summarizerEntry (by decide) (by decide) (by decide)

/-- C1: an LLM classification whose target agent does not resolve to a
currently healthy registry entry, or whose (defaulted) confidence is below 40,
is replaced by the deterministic fallback classification before dispatch; and
`routeToAgent` dispatches only when the target resolves to a healthy entry —
an unknown or unhealthy target raises the corresponding routing error
instead. -/
theorem orchestrator_never_dispatches_unhealthy :
    (∀ (c : RawClassification) (query : String) (reg : RegistryMap),
      resolvesHealthy reg c.targetAgent = false →
        classifyQueryLLM false (.success c) query reg =
          pushReasoning (fallbackClassification query reg)
            "Target agent unavailable, using fallback") ∧
    (∀ (c : RawClassification) (query : String) (reg : RegistryMap),
      resolvesHealthy reg c.targetAgent = true → c.confidence.getD 50 < 40 →
        classifyQueryLLM false (.success c) query reg =
          pushReasoning (fallbackClassification query reg) "Low confidence fallback") ∧
    (∀ (agentRunning : Bool) (run : ToolRunner) (memory : ConversationMemory)
       (reg : RegistryMap) (query : String) (cls : QueryClassification) (sessionId : String),
      (∀ result, routeToAgent agentRunning run memory reg query cls sessionId = .ok result →
        resolvesHealthy reg cls.targetAgent = true) ∧
      (resolvesHealthy reg cls.targetAgent = false →
        routeToAgent agentRunning run memory reg query cls sessionId =
            .error (.agentNotFound cls.targetAgent) ∨
        routeToAgent agentRunning run memory reg query cls sessionId =
            .error (.agentUnhealthy cls.targetAgent))) := by
  refine ⟨?_, ?_, ?_⟩
  · intro c query reg h
    simp [classifyQueryLLM, h]
  · intro c query reg h1 h2
    simp [classifyQueryLLM, h1, h2]
  · intro agentRunning run memory reg query cls sessionId
    constructor
    · intro result hok
      simp only [routeToAgent] at hok
      split at hok
      · exact absurd hok (by simp)
      · rename_i a hget
        split at hok
        · exact absurd hok (by simp)
        · rename_i hh
          simp only [resolvesHealthy, hget]
          simpa using hh
    · intro hf
      rcases hget : mapGet reg cls.targetAgent with _ | a
      · left
        simp [routeToAgent, hget]
      · have hf2 : a.healthy = false := by
          simpa [resolvesHealthy, hget] using hf
        right
        simp [routeToAgent, hget, hf2]

theorem orchestrator_never_dispatches_unhealthy_witness :
    (classifyQueryLLM false
        (.success { intent := "space_analysis", confidence := some 90,
                    targetAgent := "ghost-agent", parameters := [],
                    complexity := .simple, reasoning := ["llm"] })
        "analyze space" sampleRegistry =
      pushReasoning (fallbackClassification "analyze space" sampleRegistry)
        "Target agent unavailable, using fallback") ∧
    (classifyQueryLLM false
        (.success { intent := "space_analysis", confidence := some 30,
                    targetAgent := "location-agent-001", parameters := [],
                    complexity := .simple, reasoning := ["llm"] })
        "analyze space" sampleRegistry =
      pushReasoning (fallbackClassification "analyze space" sampleRegistry)
        "Low confidence fallback") ∧
    (routeToAgent true okRunner ⟨"s", [], []⟩ unhealthyRegistry "q"
        { intent := "general_warehouse_query", confidence := 50,
          targetAgent := "location-agent-001", parameters := [],
          complexity := .simple, reasoning := [] } "s" =
          .error (.agentNotFound "location-agent-001") ∨
     routeToAgent true okRunner ⟨"s", [], []⟩ unhealthyRegistry "q"
        { intent := "general_warehouse_query", confidence := 50,
          targetAgent := "location-agent-001", parameters := [],
          complexity := .simple, reasoning := [] } "s" =
          .error (.agentUnhealthy "location-agent-001")) :=
  ⟨orchestrator_never_dispatches_unhealthy.1
      { intent := "space_analysis", confidence := some 90, targetAgent := "ghost-agent",
        parameters := [], complexity := .simple, reasoning := ["llm"] }
      "analyze space" sampleRegistry (by decide),
   orchestrator_never_dispatches_unhealthy.2.1
      { intent := "space_analysis", confidence := some 30, targetAgent := "location-agent-001",
        parameters := [], complexity := .simple, reasoning := ["llm"] }
      "analyze space" sampleRegistry (by decide) (by decide),
   (orchestrator_never_dispatches_unhealthy.2.2 true okRunner ⟨"s", [], []⟩
      unhealthyRegistry "q"
      { intent := "general_warehouse_query", confidence := 50,
        targetAgent := "location-agent-001", parameters := [],
        complexity := .simple, reasoning := [] } "s").2 (by decide)⟩

/-! ### Map lemmas for discovery -/

theorem mapGet_mapSet (m : RegistryMap) (k : String) (v : AgentRegistryEntry)
    (id : String) :
    mapGet (mapSet m k v) id = if id = k then some v else mapGet m id := by
  induction m with
  | nil =>
    simp only [mapSet, mapGet]
    by_cases hik : id = k
    · subst hik
      rw [if_pos (by simp), if_pos rfl]
    · rw [if_neg (by simpa using fun h => hik (eq_of_beq h).symm), if_neg hik]
  | cons p t ih =>
    simp only [mapSet]
    by_cases hpk : (p.1 == k) = true
    · rw [if_pos hpk]
      have hpk2 : p.1 = k := eq_of_beq hpk
      simp only [mapGet]
      by_cases hik : id = k
      · subst hik
        rw [if_pos (by simp), if_pos rfl]
      · rw [if_neg (by simpa using fun h => hik (eq_of_beq h).symm), if_neg hik,
            if_neg (by simpa using fun h => hik ((eq_of_beq h).symm.trans hpk2))]
    · rw [if_neg hpk]
      have hpk2 : ¬ p.1 = k := by simpa using hpk
      simp only [mapGet, ih]
      by_cases hpi : (p.1 == id) = true
      · have hik : ¬ id = k := fun h => hpk2 ((eq_of_beq hpi).trans h)
        rw [if_pos hpi, if_neg hik, if_pos hpi]
      · rw [if_neg hpi]
        by_cases hik : id = k
        · rw [if_pos hik, if_pos hik]
        · rw [if_neg hik, if_neg hik, if_neg hpi]

theorem validateManifest_agentId {m : RawManifest} (hv : validateManifest m = true) :
    ∃ x, m.agentId = some x := by
  simp only [validateManifest, Bool.and_eq_true, Option.isSome_iff_exists] at hv
  exact hv.1.1.1.1.1.1

theorem mapGet_registerOne (reg : RegistryMap) (cfg : AgentConfig) (id : String) :
    (mapGet (registerOne reg cfg) id).isSome = true ↔
      ((mapGet reg id).isSome = true ∨
        ∃ m, cfg.fetch = ManifestFetch.ok m ∧ validateManifest m = true ∧
          m.agentId = some id) := by
  rcases hf : cfg.fetch with m | _
  · simp only [registerOne, hf]
    by_cases hv : validateManifest m
    · rw [if_pos hv]
      rcases validateManifest_agentId hv with ⟨x, hx⟩
      rw [mapGet_mapSet]
      by_cases hix : id = x
      · subst hix
        rw [if_pos (by simp [hx])]
        simp only [Option.isSome_some, true_iff]
        exact Or.inr ⟨m, rfl, hv, hx⟩
      · rw [hx]
        simp only [Option.getD_some]
        rw [if_neg hix]
        constructor
        · exact Or.inl
        · rintro (h | ⟨m2, hm2, hv2, hid2⟩)
          · exact h
          · cases ManifestFetch.ok.inj hm2
            rw [hx] at hid2
            exact absurd (Option.some.inj hid2).symm hix
    · rw [if_neg hv]
      constructor
      · exact Or.inl
      · rintro (h | ⟨m2, hm2, hv2, hid2⟩)
        · exact h
        · cases ManifestFetch.ok.inj hm2
          exact absurd hv2 hv
  · simp [registerOne, hf]

theorem discoverAgents_mapGet (cfgs : List AgentConfig) (reg : RegistryMap) (id : String) :
    (mapGet (discoverAgents cfgs reg) id).isSome = true ↔
      ((mapGet reg id).isSome = true ∨
        ∃ cfg ∈ cfgs, ∃ m, cfg.fetch = ManifestFetch.ok m ∧ validateManifest m = true ∧
          m.agentId = some id) := by
  induction cfgs generalizing reg with
  | nil => simp [discoverAgents]
  | cons cfg rest ih =>
    simp only [discoverAgents]
    rw [ih, mapGet_registerOne]
    constructor
    · rintro ((h | h) | h)
      · exact Or.inl h
      · exact Or.inr ⟨cfg, List.mem_cons_self .., h⟩
      · rcases h with ⟨cfg2, hmem, hrest⟩
        exact Or.inr ⟨cfg2, List.mem_cons_of_mem _ hmem, hrest⟩
    · rintro (h | ⟨cfg2, hmem, hrest⟩)
      · exact Or.inl (Or.inl h)
      · rcases List.mem_cons.mp hmem with rfl | hmem2
        · exact Or.inl (Or.inr hrest)
        · exact Or.inr ⟨cfg2, hmem2, hrest⟩

/-- C7: `start()`'s discovery registers exactly the configured agents whose
manifest fetch succeeds and passes validation: an agent id is present in the
registry afterwards if and only if some configured agent's fetch returned a
validated manifest carrying that id — a fetch failure or validation failure
is skipped without registration, and (since the iff holds for every
configuration) a failure for one agent never prevents registration of the
others; discovery itself never fails. -/
theorem discovery_partial_success :
    ∀ (cfgs : List AgentConfig) (id : String),
      (mapGet (discoverAgents cfgs []) id).isSome = true ↔
        ∃ cfg ∈ cfgs, ∃ m, cfg.fetch = ManifestFetch.ok m ∧ validateManifest m = true ∧
          m.agentId = some id := by
  intro cfgs id
  rw [discoverAgents_mapGet]
  simp [mapGet]

/-- The location agent manifest, as `getManifest()` returns it. -/
def rawLocationManifest : RawManifest :=
  { agentId := some "location-agent-001"
    name := some "Warehouse Location Agent"
    description := some "Specialist agent for warehouse inventory location queries"
    version := some "1.0.0"
    tools := some locationTools
    capabilities := some ["Natural language query processing",
      "Multi-turn conversation memory", "Complex query decomposition"]
    expertise := some ["Product location queries", "Space utilization analysis",
      "Inventory status management"]
    healthEndpoint := some "/health"
    status := some "healthy" }

/-- A manifest missing its `tools` array (fails validation). -/
def rawBrokenManifest : RawManifest :=
  { agentId := some "broken-agent", name := some "Broken", description := some "?",
    version := some "0.0.1", tools := none, capabilities := some [], expertise := some [] }

/-- A discovery config with one good agent, one unreachable agent and one
agent with an invalid manifest. -/
def demoDiscoveryConfig : List AgentConfig :=
  [ { agentId := "location-agent-001", fetch := .ok rawLocationManifest },
    { agentId := "unreachable-agent", fetch := .fail },
    { agentId := "broken-agent", fetch := .ok rawBrokenManifest } ]

theorem discovery_partial_success_witness :
    (mapGet (discoverAgents demoDiscoveryConfig []) "location-agent-001").isSome = true ∧
    (mapGet (discoverAgents demoDiscoveryConfig []) "broken-agent").isSome = false ∧
    (mapGet (discoverAgents demoDiscoveryConfig []) "unreachable-agent").isSome = false :=
  ⟨(discovery_partial_success demoDiscoveryConfig "location-agent-001").mpr
      ⟨{ agentId := "location-agent-001", fetch := .ok rawLocationManifest },
        by decide, rawLocationManifest, rfl, by decide, rfl⟩,
    by decide, by decide⟩

/-- The digit rule as the claim words it, literally: the query contains a run
of six or more consecutive digits, with no word-boundary requirement.
Written from the claim's words for comparison with the source's
`/\b\d{6,}\b/` test. -/
def hasSixConsecutiveDigits (s : String) : Bool :=
  s.data.tails.any (fun t => 6 ≤ (t.takeWhile Char.isDigit).length)

/-- C2 counterexample: the query `a1234567` contains a run of 7 consecutive
digits, yet `fallbackClassification` does not classify it as
`product_location_search` — the source's regex `/\b\d{6,}\b/` requires word
boundaries and the run is preceded by the letter `a`, so the catch-all intent
is produced instead. -/
theorem fallback_digit_rule_counterexample :
    hasSixConsecutiveDigits "a1234567" = true ∧
    testBoundedDigitRun (jsToLower "a1234567") = false ∧
    (fallbackClassification "a1234567" sampleRegistry).intent = "general_warehouse_query" ∧
    (fallbackClassification "a1234567" sampleRegistry).intent ≠ "product_location_search" := by
  refine ⟨by decide, by decide, by decide, by decide⟩

/-- C2 (amended): `fallbackClassification` lower-cases the query and applies
the ordered substring rules, where the digit rule requires a
*word-boundary-delimited* run of six or more digits (the regex
`/\b\d{6,}\b/`, not a bare digit run); the result always has confidence 50,
parameters `{query}`, target agent equal to the first healthy agent of the
registry (the literal `location-agent-001` when none is healthy), and
complexity `complex` exactly when the original query contains `" and "` or
`" then "`. -/
theorem fallback_classification_rules :
    ∀ (query : String) (reg : RegistryMap),
      ((strIncludes (jsToLower query) "where is" || testBoundedDigitRun (jsToLower query)) = true →
        (fallbackClassification query reg).intent = "product_location_search") ∧
      ((strIncludes (jsToLower query) "where is" || testBoundedDigitRun (jsToLower query)) = false →
        (strIncludes (jsToLower query) "how many" || strIncludes (jsToLower query) "count") = true →
        (fallbackClassification query reg).intent = "inventory_count_query") ∧
      ((strIncludes (jsToLower query) "where is" || testBoundedDigitRun (jsToLower query)) = false →
        (strIncludes (jsToLower query) "how many" || strIncludes (jsToLower query) "count") = false →
        (strIncludes (jsToLower query) "highest" || strIncludes (jsToLower query) "most") = true →
        (fallbackClassification query reg).intent = "inventory_ranking_analysis") ∧
      ((strIncludes (jsToLower query) "where is" || testBoundedDigitRun (jsToLower query)) = false →
        (strIncludes (jsToLower query) "how many" || strIncludes (jsToLower query) "count") = false →
        (strIncludes (jsToLower query) "highest" || strIncludes (jsToLower query) "most") = false →
        (strIncludes (jsToLower query) "summary" || strIncludes (jsToLower query) "overview") = true →
        (fallbackClassification query reg).intent = "comprehensive_summary") ∧
      ((strIncludes (jsToLower query) "where is" || testBoundedDigitRun (jsToLower query)) = false →
        (strIncludes (jsToLower query) "how many" || strIncludes (jsToLower query) "count") = false →
        (strIncludes (jsToLower query) "highest" || strIncludes (jsToLower query) "most") = false →
        (strIncludes (jsToLower query) "summary" || strIncludes (jsToLower query) "overview") = false →
        strIncludes (jsToLower query) "space" = true →
        (fallbackClassification query reg).intent = "space_analysis") ∧
      ((strIncludes (jsToLower query) "where is" || testBoundedDigitRun (jsToLower query)) = false →
        (strIncludes (jsToLower query) "how many" || strIncludes (jsToLower query) "count") = false →
        (strIncludes (jsToLower query) "highest" || strIncludes (jsToLower query) "most") = false →
        (strIncludes (jsToLower query) "summary" || strIncludes (jsToLower query) "overview") = false →
        strIncludes (jsToLower query) "space" = false →
        strIncludes (jsToLower query) "expire" = true →
        (fallbackClassification query reg).intent = "expiration_check") ∧
      ((strIncludes (jsToLower query) "where is" || testBoundedDigitRun (jsToLower query)) = false →
        (strIncludes (jsToLower query) "how many" || strIncludes (jsToLower query) "count") = false →
        (strIncludes (jsToLower query) "highest" || strIncludes (jsToLower query) "most") = false →
        (strIncludes (jsToLower query) "summary" || strIncludes (jsToLower query) "overview") = false →
        strIncludes (jsToLower query) "space" = false →
        strIncludes (jsToLower query) "expire" = false →
        (fallbackClassification query reg).intent = "general_warehouse_query") ∧
      (fallbackClassification query reg).confidence = 50 ∧
      (fallbackClassification query reg).parameters = [("query", query)] ∧
      (∀ a, (getHealthyAgents reg).head? = some a →
        (fallbackClassification query reg).targetAgent = a.agentId) ∧
      ((getHealthyAgents reg).head? = none →
        (fallbackClassification query reg).targetAgent = "location-agent-001") ∧
      ((fallbackClassification query reg).complexity = Complexity.complex ↔
        (strIncludes query " and " || strIncludes query " then ") = true) := by
  intro query reg
  refine ⟨?_, ?_, ?_, ?_, ?_, ?_, ?_, ?_, ?_, ?_, ?_, ?_⟩
  · intro h1
    simp [fallbackClassification, h1]
  · intro h1 h2
    simp [fallbackClassification, h1, h2]
  · intro h1 h2 h3
    simp [fallbackClassification, h1, h2, h3]
  · intro h1 h2 h3 h4
    simp [fallbackClassification, h1, h2, h3, h4]
  · intro h1 h2 h3 h4 h5
    simp [fallbackClassification, h1, h2, h3, h4, h5]
  · intro h1 h2 h3 h4 h5 h6
    simp [fallbackClassification, h1, h2, h3, h4, h5, h6]
  · intro h1 h2 h3 h4 h5 h6
    simp [fallbackClassification, h1, h2, h3, h4, h5, h6]
  · simp [fallbackClassification]
  · simp [fallbackClassification]
  · intro a ha
    simp [fallbackClassification, ha]
  · intro ha
    simp [fallbackClassification, ha]
  · simp only [fallbackClassification]
    rcases hc : (strIncludes query " and " || strIncludes query " then ") with _ | _
    · simp [hc]
    · simp [hc]

theorem fallback_classification_rules_witness :
    (fallbackClassification "where is product 1263755" sampleRegistry).intent =
        "product_location_search" ∧
    (fallbackClassification "how many pallets do we have" sampleRegistry).intent =
        "inventory_count_query" ∧
    (fallbackClassification "give me an overview now and compare areas then rank"
        sampleRegistry).targetAgent = "location-agent-001" ∧
    (fallbackClassification "give me an overview now and compare areas then rank"
        sampleRegistry).complexity = Complexity.complex :=
  ⟨(fallback_classification_rules "where is product 1263755" sampleRegistry).1 (by decide),
   (fallback_classification_rules "how many pallets do we have" sampleRegistry).2.1
      (by decide) (by decide),
   (fallback_classification_rules "give me an overview now and compare areas then rank"
      sampleRegistry).2.2.2.2.2.2.2.2.2.1 locationEntry (by decide),
   ((fallback_classification_rules "give me an overview now and compare areas then rank"
      sampleRegistry).2.2.2.2.2.2.2.2.2.2.2).mpr (by decide)⟩

/-- C8 counterexample: when the location agent is not running,
`processMessage` throws `Location Agent is not running` *before* entering its
try/catch, so the fault propagates raw to the caller instead of being turned
into a structured error response. -/
theorem process_message_not_running_counterexample :
    processMessage false okRunner
        { sessionId := "s1", messages := [], queryHistory := [] }
        { sessionId := "s1", agentId := "orchestrator", content := "hello" } =
      Except.error "Location Agent is not running" := rfl

/-- C8 (amended): while the agent is running, `processMessage` always returns
a structured response (never a propagated fault): a tool-call failure or
exception inside a handler is caught by `processWarehouseQuery`, appended to
the reasoning trail as an error note, and surfaces as a response with status
`error` and an explanatory message (with the partial tool-call trace kept);
only a stopped agent throws, and that throw happens before the try/catch. -/
theorem process_message_structured_errors :
    ∀ (run : ToolRunner) (memory : ConversationMemory) (message : A2AMessage),
      (∃ resp mem2, processMessage true run memory message = .ok (resp, mem2)) ∧
      (∀ resp mem2, processMessage true run memory message = .ok (resp, mem2) →
        (resp.status = .success ∨ resp.status = .error) ∧
        (∀ st e,
          planAndExecuteQuery run message.content (initialHandlerState message.content) =
            (st, .error e) →
          resp.status = .error ∧
          resp.reasoning = st.reasoning ++ ["❌ Error executing query: " ++ e] ∧
          resp.content = "I encountered an issue processing your warehouse query. " ++ e ∧
          resp.toolCalls = st.toolCalls)) := by
  intro run memory message
  constructor
  · exact ⟨processWarehouseQuery run message, _, rfl⟩
  · intro resp mem2 hok
    have hresp : resp = processWarehouseQuery run message := by
      simp only [processMessage, Bool.not_true, Bool.false_eq_true, if_false,
        Except.ok.injEq, Prod.mk.injEq] at hok
      exact hok.1.symm
    subst hresp
    constructor
    · simp only [processWarehouseQuery]
      rcases planAndExecuteQuery run message.content (initialHandlerState message.content)
        with ⟨st, r⟩
      rcases r with e | content
      · exact Or.inr rfl
      · exact Or.inl rfl
    · intro st e hplan
      simp [processWarehouseQuery, hplan]

/-- The handler state at which the summary batch rejects on
`expirationFailRunner`. -/
def summaryFailState : HandlerState :=
  { reasoning := ["🤔 Analyzing warehouse query: \"Give me a warehouse summary\"",
                  "🧠 Planning approach for: \"Give me a warehouse summary\"",
                  "📋 Generating comprehensive warehouse summary"]
    toolCalls := [] }

theorem process_message_structured_errors_witness :
    ∃ resp mem2,
      processMessage true expirationFailRunner
          { sessionId := "s1", messages := [], queryHistory := [] }
          { sessionId := "s1", agentId := "orchestrator",
            content := "Give me a warehouse summary" } = .ok (resp, mem2) ∧
      resp.status = ResponseStatus.error ∧
      resp.content =
        "I encountered an issue processing your warehouse query. database connection lost" := by
  rcases (process_message_structured_errors expirationFailRunner
      { sessionId := "s1", messages := [], queryHistory := [] }
      { sessionId := "s1", agentId := "orchestrator",
        content := "Give me a warehouse summary" }).1 with ⟨resp, mem2, hok⟩
  have h := ((process_message_structured_errors expirationFailRunner
      { sessionId := "s1", messages := [], queryHistory := [] }
      { sessionId := "s1", agentId := "orchestrator",
        content := "Give me a warehouse summary" }).2 resp mem2 hok).2
      summaryFailState "database connection lost" (by decide)
  exact ⟨resp, mem2, hok, h.1, h.2.2.1⟩

/-- C5 counterexample: with the expiration tool rejecting and the other two
succeeding, the summary query produces a status-`error` response whose
tool-call trace is empty — the whole batch failed; no success response with
the expiration section omitted is produced. -/
theorem summary_batch_failure_counterexample :
    (Except.isOk (expirationFailRunner "analyze_space_utilization" summarySpaceParams) = true) ∧
    (Except.isOk (expirationFailRunner "quantity_analysis" summaryQuantityParams) = true) ∧
    (Except.isOk (expirationFailRunner "check_expiration_dates" summaryExpirationParams) = false) ∧
    (processWarehouseQuery expirationFailRunner
        { sessionId := "s1", agentId := "orchestrator",
          content := "Give me a warehouse summary" }).status = ResponseStatus.error ∧
    (processWarehouseQuery expirationFailRunner
        { sessionId := "s1", agentId := "orchestrator",
          content := "Give me a warehouse summary" }).content =
      "I encountered an issue processing your warehouse query. database connection lost" ∧
    (processWarehouseQuery expirationFailRunner
        { sessionId := "s1", agentId := "orchestrator",
          content := "Give me a warehouse summary" }).toolCalls = [] := by
  refine ⟨by decide, by decide, by decide, by decide, by decide, by decide⟩

/-- C5 (amended): the summary handler issues its three tool calls as one
`Promise.all` batch and waits for all of them; the batch is all-or-nothing —
it succeeds exactly when all three calls succeed, in which case all three are
recorded in the trace and the synthesized response is returned, and if any
call throws the handler rethrows, recording nothing, so the failure surfaces
as `processWarehouseQuery`'s status-`error` response.  (Sections are omitted
only for a *successful* call whose result lacks a `summary` field.) -/
theorem summary_all_or_nothing_join :
    ∀ (run : ToolRunner) (query : String) (st : HandlerState),
      (Except.isOk (handleSummaryQuery run query st).2 =
        (Except.isOk (run "analyze_space_utilization" summarySpaceParams) &&
         Except.isOk (run "check_expiration_dates" summaryExpirationParams) &&
         Except.isOk (run "quantity_analysis" summaryQuantityParams))) ∧
      (∀ e, (handleSummaryQuery run query st).2 = .error e →
        (handleSummaryQuery run query st).1.toolCalls = st.toolCalls) ∧
      (∀ r1 r2 r3,
        run "analyze_space_utilization" summarySpaceParams = .ok r1 →
        run "check_expiration_dates" summaryExpirationParams = .ok r2 →
        run "quantity_analysis" summaryQuantityParams = .ok r3 →
        (handleSummaryQuery run query st).2 = .ok (summaryResponse r1 r2 r3) ∧
        (handleSummaryQuery run query st).1.toolCalls = st.toolCalls ++
          [⟨"analyze_space_utilization", summarySpaceParams, r1⟩,
           ⟨"check_expiration_dates", summaryExpirationParams, r2⟩,
           ⟨"quantity_analysis", summaryQuantityParams, r3⟩]) := by
  intro run query st
  refine ⟨?_, ?_, ?_⟩
  · rcases h1 : run "analyze_space_utilization" summarySpaceParams with e1 | r1 <;>
      rcases h2 : run "check_expiration_dates" summaryExpirationParams with e2 | r2 <;>
      rcases h3 : run "quantity_analysis" summaryQuantityParams with e3 | r3 <;>
      simp only [handleSummaryQuery, h1, h2, h3] <;> rfl
  · intro e he
    rcases h1 : run "analyze_space_utilization" summarySpaceParams with e1 | r1 <;>
      rcases h2 : run "check_expiration_dates" summaryExpirationParams with e2 | r2 <;>
      rcases h3 : run "quantity_analysis" summaryQuantityParams with e3 | r3 <;>
      simp_all [handleSummaryQuery, HandlerState.note, HandlerState.record]
  · intro r1 r2 r3 h1 h2 h3
    simp [handleSummaryQuery, h1, h2, h3, HandlerState.note, HandlerState.record]

theorem summary_all_or_nothing_join_witness :
    Except.isOk (handleSummaryQuery expirationFailRunner "Give me a warehouse summary"
        { reasoning := [], toolCalls := [] }).2 = false ∧
    (handleSummaryQuery expirationFailRunner "Give me a warehouse summary"
        { reasoning := [], toolCalls := [] }).1.toolCalls = [] :=
  ⟨by
      rw [(summary_all_or_nothing_join expirationFailRunner "Give me a warehouse summary"
        { reasoning := [], toolCalls := [] }).1]
      decide,
   (summary_all_or_nothing_join expirationFailRunner "Give me a warehouse summary"
      { reasoning := [], toolCalls := [] }).2.1 "database connection lost" (by decide)⟩

/-- C6 counterexample: `getAllAgents()` copies only the array, not the entry
objects.  With one registered agent, the snapshot returned by `getAllAgents`
holds a reference to the registry's own entry object; assigning
`healthy = false` through that reference changes what `getAgent` subsequently
reads — external mutation of a returned result does affect the registry's
stored state. -/
theorem snapshot_aliasing_counterexample :
    RefModel.getAllAgents { entries := [("location-agent-001", 0)] } = [0] ∧
    RefModel.getAgent [{ agentId := "location-agent-001", healthy := true }]
        { entries := [("location-agent-001", 0)] } "location-agent-001" =
      some { agentId := "location-agent-001", healthy := true } ∧
    RefModel.getAgent
        (RefModel.writeHealthy [{ agentId := "location-agent-001", healthy := true }] 0 false)
        { entries := [("location-agent-001", 0)] } "location-agent-001" =
      some { agentId := "location-agent-001", healthy := false } :=
  ⟨rfl, rfl, rfl⟩

/-- C6 (amended): the list `getAllAgents()` returns is a fresh array, but its
elements alias the registry's stored entries: every registered agent's entry
reference occurs in the returned snapshot, and writing a field through such a
reference changes what the registry subsequently reports for that agent
(`refreshAgents` relies on exactly this in-place aliasing). -/
theorem snapshot_entries_aliased :
    ∀ (h : RefModel.Heap) (reg : RefModel.Registry) (id : String) (r : Nat),
      reg.entries.find? (fun p => p.1 == id) = some (id, r) →
      r ∈ RefModel.getAllAgents reg ∧
      ∀ (e : RefModel.EntryCell) (b : Bool), RefModel.readCell h r = some e →
        RefModel.getAgent (RefModel.writeHealthy h r b) reg id =
          some { e with healthy := b } := by
  intro h reg id r hfind
  constructor
  · exact List.mem_map_of_mem (fun p => p.2) (List.mem_of_find?_eq_some hfind)
  · intro e b hread
    simp only [RefModel.getAgent, hfind]
    simp only [RefModel.writeHealthy, RefModel.readCell] at *
    rw [hread]
    have hr : r < h.length := by
      by_contra hge
      rw [List.get?_eq_none.mpr (by omega)] at hread
      exact Option.noConfusion hread
    show (h.set r { agentId := e.agentId, healthy := b }).get? r =
      some { agentId := e.agentId, healthy := b }
    rw [List.get?_eq_getElem?]
    exact List.getElem?_set_eq_of_lt _ hr

theorem snapshot_entries_aliased_witness :
    0 ∈ RefModel.getAllAgents { entries := [("location-agent-001", 0)] } ∧
    RefModel.getAgent
        (RefModel.writeHealthy [{ agentId := "location-agent-001", healthy := true }] 0 false)
        { entries := [("location-agent-001", 0)] } "location-agent-001" =
      some { agentId := "location-agent-001", healthy := false } := by
  have h := snapshot_entries_aliased
    [{ agentId := "location-agent-001", healthy := true }]
    { entries := [("location-agent-001", 0)] } "location-agent-001" 0 (by decide)
  exact ⟨h.1, h.2 { agentId := "location-agent-001", healthy := true } false (by decide)⟩

/-! ### Lemmas about the stable descending insertion sort -/

theorem mem_insertByKeyDesc {α : Type} (key : α → Int) (x a : α) (l : List α) :
    a ∈ insertByKeyDesc key x l ↔ a = x ∨ a ∈ l := by
  induction l with
  | nil => simp [insertByKeyDesc]
  | cons y ys ih =>
    simp only [insertByKeyDesc]
    split
    · simp [List.mem_cons]
    · simp only [List.mem_cons, ih]
      tauto

theorem pairwise_insertByKeyDesc {α : Type} (key : α → Int) (x : α) (l : List α)
    (h : l.Pairwise (fun a b => key b ≤ key a)) :
    (insertByKeyDesc key x l).Pairwise (fun a b => key b ≤ key a) := by
  induction l with
  | nil => simp [insertByKeyDesc]
  | cons y ys ih =>
    rcases List.pairwise_cons.mp h with ⟨hy, hys⟩
    simp only [insertByKeyDesc]
    split
    · rename_i hle
      refine List.pairwise_cons.mpr ⟨?_, h⟩
      intro b hb
      rcases List.mem_cons.mp hb with rfl | hb2
      · exact hle
      · exact le_trans (hy b hb2) hle
    · rename_i hgt
      push_neg at hgt
      refine List.pairwise_cons.mpr ⟨?_, ih hys⟩
      intro b hb
      rcases (mem_insertByKeyDesc key x b ys).mp hb with rfl | hb2
      · exact le_of_lt hgt
      · exact hy b hb2

theorem pairwise_sortByKeyDesc {α : Type} (key : α → Int) (l : List α) :
    (sortByKeyDesc key l).Pairwise (fun a b => key b ≤ key a) := by
  induction l with
  | nil => simp [sortByKeyDesc]
  | cons x xs ih => exact pairwise_insertByKeyDesc key x _ ih

theorem mem_sortByKeyDesc {α : Type} (key : α → Int) (a : α) (l : List α) :
    a ∈ sortByKeyDesc key l ↔ a ∈ l := by
  induction l with
  | nil => simp [sortByKeyDesc]
  | cons x xs ih => simp [sortByKeyDesc, mem_insertByKeyDesc, ih]

theorem filter_insertByKeyDesc {α : Type} (key : α → Int) (x : α) (s : Int) (l : List α) :
    (insertByKeyDesc key x l).filter (fun a => key a == s) =
      if key x = s then x :: l.filter (fun a => key a == s)
      else l.filter (fun a => key a == s) := by
  induction l with
  | nil =>
    by_cases hxs : key x = s <;> simp [insertByKeyDesc, List.filter_cons, hxs]
  | cons y ys ih =>
    simp only [insertByKeyDesc]
    split
    · rename_i hle
      by_cases hxs : key x = s <;> simp [List.filter_cons, hxs]
    · rename_i hgt
      push_neg at hgt
      rw [List.filter_cons]
      by_cases hys : key y = s
      · have hxs : ¬ key x = s := by omega
        rw [if_pos (by simpa using hys), ih, if_neg hxs, if_neg hxs, List.filter_cons,
          if_pos (by simpa using hys)]
      · rw [if_neg (by simpa using hys), ih]
        by_cases hxs : key x = s
        · rw [if_pos hxs, if_pos hxs, List.filter_cons, if_neg (by simpa using hys)]
        · rw [if_neg hxs, if_neg hxs, List.filter_cons, if_neg (by simpa using hys)]

theorem filter_sortByKeyDesc {α : Type} (key : α → Int) (s : Int) (l : List α) :
    (sortByKeyDesc key l).filter (fun a => key a == s) = l.filter (fun a => key a == s) := by
  induction l with
  | nil => rfl
  | cons x xs ih =>
    simp only [sortByKeyDesc]
    rw [filter_insertByKeyDesc, List.filter_cons]
    by_cases hxs : key x = s
    · rw [if_pos hxs, ih, if_pos (by simpa using hxs)]
    · rw [if_neg hxs, ih, if_neg (by simpa using hxs)]

theorem sum_map_double {α : Type} (f : α → Int) (l : List α) :
    (l.map (fun x => f x * 2)).sum = 2 * (l.map f).sum := by
  induction l with
  | nil => simp
  | cons a t ih =>
    simp only [List.map_cons, List.sum_cons, ih]
    ring

/-- C3: `findAgentsByIntentTags` returns only healthy agents with a strictly
positive score, where an agent's score is 2 per fuzzy tool-tag match (summed
over all tools) plus 1 per fuzzy-matching capability and expertise label; the
result is sorted descending by score, and equal-score agents keep their
discovery order (for every score value, the results with that score are
exactly the candidates with that score, in their original order). -/
theorem intent_tag_ranking_sound :
    ∀ (m : RegistryMap) (tags : List String),
      (∀ p ∈ findAgentsByIntentTags m tags,
        0 < p.score ∧ p.agent.healthy = true ∧ p.score = scoreAgent tags p.agent) ∧
      (findAgentsByIntentTags m tags).Pairwise (fun a b => b.score ≤ a.score) ∧
      (∀ s : Int, (findAgentsByIntentTags m tags).filter (fun p => p.score == s) =
        (scoredCandidates m tags).filter (fun p => p.score == s)) ∧
      (∀ a : AgentRegistryEntry, scoreAgent tags a =
        2 * (a.tools.map (fun tool =>
          ((tool.intentTags.filter (fun tag =>
              tags.any (fun q => fuzzyMatch q tag))).length : Int))).sum
        + ((a.capabilities.filter (fun cap =>
              tags.any (fun tag => fuzzyMatch cap tag))).length : Int)
        + ((a.expertise.filter (fun exp =>
              tags.any (fun tag => fuzzyMatch exp tag))).length : Int)) := by
  intro m tags
  refine ⟨?_, ?_, ?_, ?_⟩
  · intro p hp
    simp only [findAgentsByIntentTags] at hp
    have hp2 : p ∈ scoredCandidates m tags :=
      (mem_sortByKeyDesc (fun q : ScoredAgent => q.score) p _).mp hp
    rcases List.mem_filterMap.mp hp2 with ⟨a, ha, hfa⟩
    simp only at hfa
    by_cases hs : 0 < scoreAgent tags a
    · rw [if_pos hs] at hfa
      cases hfa
      exact ⟨hs, (List.mem_filter.mp ha).2, rfl⟩
    · rw [if_neg hs] at hfa
      exact absurd hfa (by simp)
  · simp only [findAgentsByIntentTags]
    exact pairwise_sortByKeyDesc (fun q : ScoredAgent => q.score) _
  · intro s
    simp only [findAgentsByIntentTags]
    exact filter_sortByKeyDesc (fun q : ScoredAgent => q.score) s _
  · intro a
    simp only [scoreAgent]
    rw [sum_map_double]

theorem intent_tag_ranking_sound_witness :
    (0 : Int) < 3 ∧ locationEntry.healthy = true ∧
    (3 : Int) = scoreAgent ["location"] locationEntry ∧
    findAgentsByIntentTags twoAgentRegistry ["location"] =
      [{ agent := locationEntry, score := 3 }] := by
  have h := (intent_tag_ranking_sound twoAgentRegistry ["location"]).1
    { agent := locationEntry, score := 3 } (by decide)
  exact ⟨h.1, h.2.1, h.2.2, by decide⟩

end WarehouseAI
